import Mathlib

/-!
# Verification of the `png-container` chunk codec and readers

A shallow embedding, in Lean 4, of the parts of the `png-container`
repository that the specification's testable claims are about:

* the chunk payload codec of `src/chunks.rs` (`PngChunkRef::read_chunk`,
  `PngChunkRef::from_stream`, `read_fctl_fdat_sequence_number`, `find_null`);
* the per-chunk decode/encode pairs of `src/chunks/critical.rs`,
  `src/chunks/animation.rs` and `src/chunks/text.rs`
  (`from_contents_stream` / `write_contents`);
* the forward PNG/APNG reader of `src/reader.rs` (`PngReader`), including
  `scan_next_chunk`, `scan_header_chunks`, `scan_chunks_filtered` and
  `apng_scan_frames`;
* the per-chunk CRC read loop of `src/jngreader.rs::from_stream`.

Modelling conventions:

* A stream of bytes is a `List Nat` (each element a byte value) together
  with explicit absolute positions; `read_exact` is a bounds-checked slice.
  Every operation of the Rust code re-seeks to an absolute position before
  reading, so the readers' hidden stream cursor is not part of the state.
* Rust `Result` is `Except PngError`; a Rust runtime panic (out-of-bounds
  index or slice, `Option::unwrap`/`Result::unwrap` failure) is modelled by
  the distinguished outcome `PngError.rsPanic`.  In Rust a panic is *not* an
  `Err` return; the constructor merely records that the modelled execution
  aborts at that point.
* Unbounded `loop`s are modelled with an explicit fuel parameter; running
  out of fuel yields `none`, never an `Except` value.
* `u32`/`u64` quantities are `Nat`.  The file positions and lengths the
  code manipulates stay far below `2^32`/`2^64`, no arithmetic in the
  embedded code can overflow in Rust, so no modular reduction is needed.
-/

/-! ## Byte-stream primitives -/

/-- `read_exact` of `n` bytes at absolute position `pos`: the bytes, or
`none` when fewer than `n` bytes remain (a Rust short read). -/
def readExact (file : List Nat) (pos n : Nat) : Option (List Nat) :=
  if pos + n ≤ file.length then some ((file.drop pos).take n) else none

/-- Rust slice indexing `data[i]`; `none` models the out-of-bounds panic. -/
def idx? (data : List Nat) (i : Nat) : Option Nat :=
  data[i]?

/-- Rust range slicing `data[a..b]`; `none` models the out-of-bounds panic
(`a > b` or `b > data.len()`). -/
def slice? (data : List Nat) (a b : Nat) : Option (List Nat) :=
  if a ≤ b ∧ b ≤ data.length then some ((data.drop a).take (b - a)) else none

/-- Rust tail slicing `data[a..]`; `none` models the out-of-bounds panic. -/
def sliceFrom? (data : List Nat) (a : Nat) : Option (List Nat) :=
  slice? data a data.length

/-- `u32::from_be_bytes` on a 4-byte buffer. -/
def beU32 : List Nat → Nat
  | [a, b, c, d] => ((a * 256 + b) * 256 + c) * 256 + d
  | _ => 0

/-- `u16::from_be_bytes` on a 2-byte buffer. -/
def beU16 : List Nat → Nat
  | [a, b] => a * 256 + b
  | _ => 0

/-- `u32::to_be_bytes`. -/
def u32ToBE (n : Nat) : List Nat :=
  [n / 16777216 % 256, n / 65536 % 256, n / 256 % 256, n % 256]

/-- `u16::to_be_bytes`. -/
def u16ToBE (n : Nat) : List Nat :=
  [n / 256 % 256, n % 256]

/-- `find_null` from `src/chunks.rs`: index of the first NUL byte, or the
length of the buffer when there is none (`position(..).unwrap_or(len)`). -/
def find_null (bytes : List Nat) : Nat :=
  bytes.findIdx (fun byte => byte == 0)

/-! ## CRC engine

Modelled from the spec: the `crc` module (`src/crc.rs`, the CRC engine of
spec §4.1) is declared in `src/lib.rs` but its source file is not present
under `src/`.  Per §4.1 it is the IEEE/zlib-polynomial CRC-32, a pure
function of the concatenated bytes fed in wire order, with incremental
`consume` calls equal to consuming the concatenation at once; we therefore
model it as a pure function of a byte list. -/

/-- One round of the bitwise (reflected, polynomial `0xEDB88320`) CRC-32. -/
def crc32Round (c : Nat) : Nat :=
  if c % 2 = 1 then (c / 2) ^^^ 0xEDB88320 else c / 2

/-- Fold one byte into the CRC-32 accumulator. -/
def crc32Byte (c b : Nat) : Nat :=
  (crc32Round ∘ crc32Round ∘ crc32Round ∘ crc32Round ∘
   crc32Round ∘ crc32Round ∘ crc32Round ∘ crc32Round) (c ^^^ b % 256)

/-- Streaming CRC state (`CRC::new` / `consume` / `value`). -/
structure CRC where
  state : Nat
deriving DecidableEq

def CRC.new : CRC := ⟨0xFFFFFFFF⟩

def CRC.consume (c : CRC) (bytes : List Nat) : CRC :=
  ⟨bytes.foldl crc32Byte c.state⟩

def CRC.value (c : CRC) : Nat :=
  c.state ^^^ 0xFFFFFFFF

/-- CRC-32 of a whole byte sequence. -/
def crc32 (bytes : List Nat) : Nat :=
  (CRC.new.consume bytes).value

/-! ## Enumerations from `src/types.rs`

Each `TryFromPrimitive` enum gets a partial `ofNat?` (its `try_into`) and a
total `toNat` (its `Into<u8>`); `FromPrimitive` enums with a
`#[num_enum(catch_all)]` arm are total and value-preserving, so they are
modelled as wrappers around the raw byte. -/

inductive PngFileType | png | mng | jng | apng
deriving DecidableEq

inductive PngColourType | greyscale | trueColour | indexedColour | greyscaleAlpha | trueColourAlpha
deriving DecidableEq

def PngColourType.ofNat? : Nat → Option PngColourType
  | 0 => some .greyscale
  | 2 => some .trueColour
  | 3 => some .indexedColour
  | 4 => some .greyscaleAlpha
  | 6 => some .trueColourAlpha
  | _ => none

def PngColourType.toNat : PngColourType → Nat
  | .greyscale => 0
  | .trueColour => 2
  | .indexedColour => 3
  | .greyscaleAlpha => 4
  | .trueColourAlpha => 6

inductive PngCompressionMethod | zlib
deriving DecidableEq

def PngCompressionMethod.ofNat? : Nat → Option PngCompressionMethod
  | 0 => some .zlib
  | _ => none

def PngCompressionMethod.toNat : PngCompressionMethod → Nat
  | .zlib => 0

inductive PngFilterMethod | adaptive
deriving DecidableEq

def PngFilterMethod.ofNat? : Nat → Option PngFilterMethod
  | 0 => some .adaptive
  | _ => none

def PngFilterMethod.toNat : PngFilterMethod → Nat
  | .adaptive => 0

inductive PngInterlaceMethod | none | adam7
deriving DecidableEq

def PngInterlaceMethod.ofNat? : Nat → Option PngInterlaceMethod
  | 0 => some .none
  | 1 => some .adam7
  | _ => Option.none

def PngInterlaceMethod.toNat : PngInterlaceMethod → Nat
  | .none => 0
  | .adam7 => 1

inductive PngRenderingIntent | perceptual | relativeColorimetric | saturation | absoluteColorimetric
deriving DecidableEq

def PngRenderingIntent.ofNat? : Nat → Option PngRenderingIntent
  | 0 => some .perceptual
  | 1 => some .relativeColorimetric
  | 2 => some .saturation
  | 3 => some .absoluteColorimetric
  | _ => none

inductive PngUnitType | unknown | metre
deriving DecidableEq

def PngUnitType.ofNat? : Nat → Option PngUnitType
  | 0 => some .unknown
  | 1 => some .metre
  | _ => none

/-- H.273 colour primaries (`FromPrimitive` with catch-all: total,
value-preserving, so the raw byte is the faithful representation). -/
structure ColourPrimaries where
  val : Nat
deriving DecidableEq

/-- H.273 transfer function (total `FromPrimitive` with catch-all). -/
structure TransferFunction where
  val : Nat
deriving DecidableEq

/-- H.273 matrix coefficients (total `FromPrimitive` with catch-all). -/
structure MatrixCoefficients where
  val : Nat
deriving DecidableEq

/-- GIF disposal method (total `FromPrimitive` with catch-all). -/
structure GifDisposalMethod where
  val : Nat
deriving DecidableEq

inductive ApngDisposalOperator | none | background | previous
deriving DecidableEq

def ApngDisposalOperator.ofNat? : Nat → Option ApngDisposalOperator
  | 0 => some .none
  | 1 => some .background
  | 2 => some .previous
  | _ => Option.none

def ApngDisposalOperator.toNat : ApngDisposalOperator → Nat
  | .none => 0
  | .background => 1
  | .previous => 2

inductive ApngBlendOperator | source | over
deriving DecidableEq

def ApngBlendOperator.ofNat? : Nat → Option ApngBlendOperator
  | 0 => some .source
  | 1 => some .over
  | _ => none

def ApngBlendOperator.toNat : ApngBlendOperator → Nat
  | .source => 0
  | .over => 1

inductive JngColourType | greyscale | colour | greyscaleAlpha | colourAlpha
deriving DecidableEq

def JngColourType.ofNat? : Nat → Option JngColourType
  | 8 => some .greyscale
  | 10 => some .colour
  | 12 => some .greyscaleAlpha
  | 14 => some .colourAlpha
  | _ => none

inductive JngImageSampleDepth | depth8 | depth12 | depth8And12
deriving DecidableEq

def JngImageSampleDepth.ofNat? : Nat → Option JngImageSampleDepth
  | 8 => some .depth8
  | 12 => some .depth12
  | 20 => some .depth8And12
  | _ => none

inductive JngCompressionType | pngGreyscale | huffmanBaseline
deriving DecidableEq

def JngCompressionType.ofNat? : Nat → Option JngCompressionType
  | 0 => some .pngGreyscale
  | 8 => some .huffmanBaseline
  | _ => none

inductive JngAlphaSampleDepth | depth0 | depth1 | depth2 | depth4 | depth8 | depth16
deriving DecidableEq

def JngAlphaSampleDepth.ofNat? : Nat → Option JngAlphaSampleDepth
  | 0 => some .depth0
  | 1 => some .depth1
  | 2 => some .depth2
  | 4 => some .depth4
  | 8 => some .depth8
  | 16 => some .depth16
  | _ => none

inductive JngInterlaceMethod | sequentialJPEG | progressiveJPEG
deriving DecidableEq

def JngInterlaceMethod.ofNat? : Nat → Option JngInterlaceMethod
  | 0 => some .sequentialJPEG
  | 8 => some .progressiveJPEG
  | _ => none

/-! ## Chunk payload structures (`src/chunks.rs`, `src/chunks/*.rs`)

Rust `String` fields built with `bytes.iter().map(|b| *b as char)` are a
byte-for-byte image of the source bytes, so they are kept as `List Nat`. -/

/-- Image header (`Ihdr` of `src/chunks/critical.rs`; the `PngChunkData::Ihdr`
variant of `src/chunks.rs` carries the same seven fields inline). -/
structure Ihdr where
  width : Nat
  height : Nat
  bit_depth : Nat
  colour_type : PngColourType
  compression_method : PngCompressionMethod
  filter_method : PngFilterMethod
  interlace_method : PngInterlaceMethod
deriving DecidableEq

/-- JNG header (`Jhdr` of `src/chunks/critical.rs`, same fields as the
`PngChunkData::Jhdr` variant of `src/chunks.rs`). -/
structure Jhdr where
  width : Nat
  height : Nat
  colour_type : JngColourType
  image_sample_depth : JngImageSampleDepth
  image_compression_method : JngCompressionType
  image_interlace_method : JngInterlaceMethod
  alpha_sample_depth : JngAlphaSampleDepth
  alpha_compression_method : JngCompressionType
  alpha_filter_method : PngFilterMethod
  alpha_interlace_method : JngInterlaceMethod
deriving DecidableEq

structure PngPaletteEntry where
  red : Nat
  green : Nat
  blue : Nat
deriving DecidableEq

structure PngSuggestedPaletteEntry where
  red : Nat
  green : Nat
  blue : Nat
  alpha : Nat
  frequency : Nat
deriving DecidableEq

inductive PngTrnsType
  | greyscale (value : Nat)
  | trueColour (red green blue : Nat)
  | indexedColour (values : List Nat)
deriving DecidableEq

inductive PngSbitType
  | greyscale (grey_bits : Nat)
  | colour (red_bits green_bits blue_bits : Nat)
  | greyscaleAlpha (grey_bits alpha_bits : Nat)
  | trueColourAlpha (red_bits green_bits blue_bits alpha_bits : Nat)
deriving DecidableEq

inductive PngBkgdType
  | greyscale (value : Nat)
  | trueColour (red green blue : Nat)
  | indexedColour (index : Nat)
deriving DecidableEq

structure Chrm where
  white_x : Nat
  white_y : Nat
  red_x : Nat
  red_y : Nat
  green_x : Nat
  green_y : Nat
  blue_x : Nat
  blue_y : Nat
deriving DecidableEq

structure Mdcv where
  red_x : Nat
  red_y : Nat
  green_x : Nat
  green_y : Nat
  blue_x : Nat
  blue_y : Nat
  white_x : Nat
  white_y : Nat
  max_lum : Nat
  min_lum : Nat
deriving DecidableEq

structure Clli where
  max_cll : Nat
  max_fall : Nat
deriving DecidableEq

structure Iccp where
  name : List Nat
  compression_method : PngCompressionMethod
  compressed_profile : List Nat
deriving DecidableEq

structure Text where
  keyword : List Nat
  string : List Nat
deriving DecidableEq

structure Ztxt where
  keyword : List Nat
  compression_method : PngCompressionMethod
  compressed_string : List Nat
deriving DecidableEq

/-- `Itxt` as in `src/chunks.rs` (a `compressed` flag plus a method). -/
structure Itxt where
  keyword : List Nat
  compressed : Bool
  compression_method : PngCompressionMethod
  language : List Nat
  translated_keyword : List Nat
  compressed_string : List Nat
deriving DecidableEq

structure Splt where
  name : List Nat
  depth : Nat
  palette : List PngSuggestedPaletteEntry
deriving DecidableEq

structure Pcal where
  name : List Nat
  original_zero : Nat
  original_max : Nat
  equation_type : Nat
  unit_name : List Nat
  parameters : List (List Nat)
deriving DecidableEq

structure Scal where
  unit : PngUnitType
  pixel_width : List Nat
  pixel_height : List Nat
deriving DecidableEq

structure Gifx where
  app_id : List Nat
  app_auth : List Nat
  app_data : List Nat
deriving DecidableEq

/-- Frame control (`Fctl`, identical in `src/chunks.rs` and
`src/chunks/animation.rs`). -/
structure Fctl where
  sequence_number : Nat
  width : Nat
  height : Nat
  x_offset : Nat
  y_offset : Nat
  delay_num : Nat
  delay_den : Nat
  dispose_op : ApngDisposalOperator
  blend_op : ApngBlendOperator
deriving DecidableEq

structure Fdat where
  sequence_number : Nat
  frame_data : List Nat
deriving DecidableEq

/-- `PngChunkData`, the tagged union of all decoded chunk payloads
(`src/chunks.rs`). -/
inductive PngChunkData
  | none
  | ihdr (data : Ihdr)
  | plte (entries : List PngPaletteEntry)
  | idat (data : List Nat)
  | iend
  | trns (data : PngTrnsType)
  | chrm (data : Chrm)
  | gama (gamma : Nat)
  | iccp (data : Iccp)
  | sbit (bits : PngSbitType)
  | srgb (rendering_intent : PngRenderingIntent)
  | cicp (colour_primaries : ColourPrimaries) (transfer_function : TransferFunction)
      (matrix_coeffs : MatrixCoefficients) (video_full_range : Bool)
  | mdcv (data : Mdcv)
  | clli (data : Clli)
  | text (data : Text)
  | ztxt (data : Ztxt)
  | itxt (data : Itxt)
  | bkgd (data : PngBkgdType)
  | hist (data : List Nat)
  | phys (x_pixels_per_unit y_pixels_per_unit : Nat) (unit : PngUnitType)
  | splt (data : Splt)
  | exif (profile : List Nat)
  | time (year month day hour minute second : Nat)
  | actl (num_frames num_plays : Nat)
  | fctl (data : Fctl)
  | fdat (data : Fdat)
  | offs (x y : Nat) (unit : PngUnitType)
  | pcal (data : Pcal)
  | scal (data : Scal)
  | gifg (disposal_method : GifDisposalMethod) (user_input : Bool) (delay_time : Nat)
  | gifx (data : Gifx)
  | ster (mode : Nat)
  | jhdr (data : Jhdr)
  | jdat (data : List Nat)
  | jdaa (data : List Nat)
  | jsep
deriving DecidableEq

/-- Reference to a chunk in a PNG file (`PngChunkRef`): `position` is the
absolute offset of the chunk's 4-byte length field. -/
structure PngChunkRef where
  position : Nat
  length : Nat
  chunktype : List Nat
deriving DecidableEq

/-- `str::from_utf8` validity (RFC 3629), used by the `iTXt` decoder. -/
def utf8Valid : List Nat → Bool
  | [] => true
  | b :: rest =>
    if b < 0x80 then utf8Valid rest
    else if 0xC2 ≤ b ∧ b ≤ 0xDF then
      match rest with
      | c1 :: r => 0x80 ≤ c1 && c1 ≤ 0xBF && utf8Valid r
      | [] => false
    else if 0xE0 ≤ b ∧ b ≤ 0xEF then
      match rest with
      | c1 :: c2 :: r =>
        (if b = 0xE0 then 0xA0 ≤ c1 && c1 ≤ 0xBF
         else if b = 0xED then 0x80 ≤ c1 && c1 ≤ 0x9F
         else 0x80 ≤ c1 && c1 ≤ 0xBF) &&
        (0x80 ≤ c2 && c2 ≤ 0xBF) && utf8Valid r
      | _ => false
    else if 0xF0 ≤ b ∧ b ≤ 0xF4 then
      match rest with
      | c1 :: c2 :: c3 :: r =>
        (if b = 0xF0 then 0x90 ≤ c1 && c1 ≤ 0xBF
         else if b = 0xF4 then 0x80 ≤ c1 && c1 ≤ 0x8F
         else 0x80 ≤ c1 && c1 ≤ 0xBF) &&
        (0x80 ≤ c2 && c2 ≤ 0xBF) && (0x80 ≤ c3 && c3 ≤ 0xBF) && utf8Valid r
      | _ => false
    else false

/-! ## Chunk type codes (ASCII bytes) -/

def ctIHDR : List Nat := [0x49, 0x48, 0x44, 0x52]
def ctPLTE : List Nat := [0x50, 0x4c, 0x54, 0x45]
def ctIDAT : List Nat := [0x49, 0x44, 0x41, 0x54]
def ctIEND : List Nat := [0x49, 0x45, 0x4e, 0x44]
def cttRNS : List Nat := [0x74, 0x52, 0x4e, 0x53]
def ctgAMA : List Nat := [0x67, 0x41, 0x4d, 0x41]
def ctcHRM : List Nat := [0x63, 0x48, 0x52, 0x4d]
def ctiCCP : List Nat := [0x69, 0x43, 0x43, 0x50]
def ctsBIT : List Nat := [0x73, 0x42, 0x49, 0x54]
def ctsRGB : List Nat := [0x73, 0x52, 0x47, 0x42]
def ctcICP : List Nat := [0x63, 0x49, 0x43, 0x50]
def ctmDCV : List Nat := [0x6d, 0x44, 0x43, 0x56]
def ctcLLI : List Nat := [0x63, 0x4c, 0x4c, 0x49]
def cttEXt : List Nat := [0x74, 0x45, 0x58, 0x74]
def ctzTXt : List Nat := [0x7a, 0x54, 0x58, 0x74]
def ctiTXt : List Nat := [0x69, 0x54, 0x58, 0x74]
def ctbKGD : List Nat := [0x62, 0x4b, 0x47, 0x44]
def cthIST : List Nat := [0x68, 0x49, 0x53, 0x54]
def ctpHYs : List Nat := [0x70, 0x48, 0x59, 0x73]
def cteXIf : List Nat := [0x65, 0x58, 0x49, 0x66]
def ctsPLT : List Nat := [0x73, 0x50, 0x4c, 0x54]
def cttIME : List Nat := [0x74, 0x49, 0x4d, 0x45]
def ctacTL : List Nat := [0x61, 0x63, 0x54, 0x4c]
def ctfcTL : List Nat := [0x66, 0x63, 0x54, 0x4c]
def ctfdAT : List Nat := [0x66, 0x64, 0x41, 0x54]
def ctoFFs : List Nat := [0x6f, 0x46, 0x46, 0x73]
def ctpCAL : List Nat := [0x70, 0x43, 0x41, 0x4c]
def ctsCAL : List Nat := [0x73, 0x43, 0x41, 0x4c]
def ctgIFg : List Nat := [0x67, 0x49, 0x46, 0x67]
def ctgIFx : List Nat := [0x67, 0x49, 0x46, 0x78]
def ctsTER : List Nat := [0x73, 0x54, 0x45, 0x52]
def ctJhdr : List Nat := [0x4a, 0x68, 0x64, 0x72]
def ctJDAT : List Nat := [0x4a, 0x44, 0x41, 0x54]
def ctJDAA : List Nat := [0x4a, 0x44, 0x41, 0x41]
def ctJSEP : List Nat := [0x4a, 0x53, 0x45, 0x50]
def ctJHDR : List Nat := [0x4a, 0x48, 0x44, 0x52]

/-- The byte string `b"aCTL"` that `scan_next_chunk` in `src/reader.rs`
compares against (note the case: it differs from the APNG animation-control
code `acTL` = `ctacTL`). -/
def ctaCTL : List Nat := [0x61, 0x43, 0x54, 0x4c]

/-! ## Error model -/

/-- Decode/scan failures.  One constructor per distinct `std::io::Error`
construction site family; `rsPanic` stands for a Rust runtime panic
(out-of-bounds index/slice or a failed `unwrap`), which in Rust aborts
instead of returning `Err`. -/
inductive PngError
  | ioErr
  | crcMismatch
  | invalidChunkTypeErr
  | badSignature
  | unhandledChunkType
  | unsetIhdr
  | wrongIhdr
  | invalidColourType
  | invalidEnumValue
  | invalidLength
  | invalidUtf8
  | notFctlFdat
  | noFctlFirst
  | rsPanic
deriving DecidableEq

/-! ## `PngChunkRef::read_chunk` (src/chunks.rs)

The decoder is a state monad over the number of payload bytes consumed so
far from the `take(length)`-limited chunk stream.  Every branch of the Rust
`match` interleaves `read_exact` with `data_crc.consume` over exactly the
bytes just read, so after the branch the CRC input is the type code
followed by the first `consumed` payload bytes; `read_chunk` below computes
the CRC over that concatenation (per spec §4.1, incremental feeding equals
feeding the concatenation). -/

/-- Context of one chunk decode: the whole stream, the chunk's position
(of its length field) and its declared payload length. -/
structure CkCtx where
  file : List Nat
  pos : Nat
  len : Nat

/-- The chunk-decode monad: consumed-byte count over `Except`. -/
abbrev CkM := StateT Nat (Except PngError)

/-- `read_exact` of `k` bytes from the `take(length)`-limited chunk stream:
fails with an I/O error when the declared length or the file runs out. -/
def ckRead (ctx : CkCtx) (k : Nat) : CkM (List Nat) := fun consumed =>
  if consumed + k ≤ ctx.len ∧ ctx.pos + 8 + consumed + k ≤ ctx.file.length then
    Except.ok ((ctx.file.drop (ctx.pos + 8 + consumed)).take k, consumed + k)
  else
    Except.error .ioErr

/-- Lift an `Option` into `CkM`, throwing `e` on `none`. -/
def liftOpt (e : PngError) : Option α → CkM α
  | some a => pure a
  | Option.none => throw e

/-- A fallible `try_into` (`.map_err(to_io_error)?`). -/
def enumE : Option α → CkM α := liftOpt .invalidEnumValue

/-- A Rust index/slice whose out-of-bounds case panics. -/
def pxE : Option α → CkM α := liftOpt .rsPanic

/-- Big-endian `u32` at offset `i` of a buffer (safe: used only where the
Rust fixed-size slice cannot fail). -/
def at4 (buf : List Nat) (i : Nat) : Nat := beU32 ((buf.drop i).take 4)

/-- Big-endian `u16` at offset `i` of a buffer. -/
def at2 (buf : List Nat) (i : Nat) : Nat := beU16 ((buf.drop i).take 2)

/-- Byte at offset `i` of a buffer (safe contexts only). -/
def at1 (buf : List Nat) (i : Nat) : Nat := buf.getD i 0

/-- The parameter-string walk of the `pCAL` branch: repeatedly take the
bytes up to the next NUL, *without* skipping it (`prev_end = param_end`). -/
def pcalParams (data : List Nat) : Nat → Nat → List (List Nat)
  | _, 0 => []
  | prev_end, n + 1 =>
    let param_end := find_null (data.drop prev_end) + prev_end
    ((data.drop prev_end).take (param_end - prev_end)) ::
      pcalParams data param_end n

/-- The per-type `match` body of `PngChunkRef::read_chunk`
(src/chunks.rs:938-1627), returning the decoded payload; the final state of
the monad is the number of payload bytes consumed. -/
def decodeBranch (ctx : CkCtx) (chunktype : List Nat) (ihdrCtx : Option PngChunkData) :
    CkM PngChunkData :=
  if chunktype = ctIHDR then do
    let buf ← ckRead ctx 13
    let colour_type ← enumE (PngColourType.ofNat? (at1 buf 9))
    let compression_method ← enumE (PngCompressionMethod.ofNat? (at1 buf 10))
    let filter_method ← enumE (PngFilterMethod.ofNat? (at1 buf 11))
    let interlace_method ← enumE (PngInterlaceMethod.ofNat? (at1 buf 12))
    pure (.ihdr ⟨at4 buf 0, at4 buf 4, at1 buf 8, colour_type,
      compression_method, filter_method, interlace_method⟩)
  else if chunktype = ctPLTE then do
    let entries ← (List.range (ctx.len / 3)).mapM (fun _ => do
      let buf ← ckRead ctx 3
      pure (⟨at1 buf 0, at1 buf 1, at1 buf 2⟩ : PngPaletteEntry))
    pure (.plte entries)
  else if chunktype = ctIDAT then do
    let data ← ckRead ctx ctx.len
    pure (.idat data)
  else if chunktype = ctIEND then
    pure .iend
  else if chunktype = cttRNS then do
    match ihdrCtx with
    | Option.none => throw .unsetIhdr
    | some (.ihdr ih) =>
      match ih.colour_type with
      | .greyscale => do
        let buf ← ckRead ctx 2
        pure (.trns (.greyscale (beU16 buf)))
      | .trueColour => do
        let buf ← ckRead ctx 6
        pure (.trns (.trueColour (at2 buf 0) (at2 buf 2) (at2 buf 4)))
      | .indexedColour => do
        let values ← ckRead ctx ctx.len
        pure (.trns (.indexedColour values))
      | _ => throw .invalidColourType
    | some _ => throw .wrongIhdr
  else if chunktype = ctgAMA then do
    let buf ← ckRead ctx 4
    pure (.gama (beU32 buf))
  else if chunktype = ctcHRM then do
    let data ← ckRead ctx 32
    pure (.chrm ⟨at4 data 0, at4 data 4, at4 data 8, at4 data 12,
      at4 data 16, at4 data 20, at4 data 24, at4 data 28⟩)
  else if chunktype = ctiCCP then do
    let data ← ckRead ctx ctx.len
    let name_end := find_null data
    let cmByte ← pxE (idx? data name_end)
    let compression_method ← enumE (PngCompressionMethod.ofNat? cmByte)
    let compressed_profile ← pxE (sliceFrom? data (name_end + 2))
    pure (.iccp ⟨data.take name_end, compression_method, compressed_profile⟩)
  else if chunktype = ctsBIT then do
    match ihdrCtx with
    | Option.none => throw .unsetIhdr
    | some (.ihdr ih) =>
      match ih.colour_type with
      | .greyscale => do
        let buf ← ckRead ctx 1
        pure (.sbit (.greyscale (at1 buf 0)))
      | .trueColour => do
        let buf ← ckRead ctx 3
        pure (.sbit (.colour (at1 buf 0) (at1 buf 1) (at1 buf 2)))
      | .indexedColour => do
        let buf ← ckRead ctx 3
        pure (.sbit (.colour (at1 buf 0) (at1 buf 1) (at1 buf 2)))
      | .greyscaleAlpha => do
        let buf ← ckRead ctx 2
        pure (.sbit (.greyscaleAlpha (at1 buf 0) (at1 buf 1)))
      | .trueColourAlpha => do
        let buf ← ckRead ctx 4
        pure (.sbit (.trueColourAlpha (at1 buf 0) (at1 buf 1) (at1 buf 2) (at1 buf 3)))
    | some _ => throw .wrongIhdr
  else if chunktype = ctsRGB then do
    let buf ← ckRead ctx 1
    let rendering_intent ← enumE (PngRenderingIntent.ofNat? (at1 buf 0))
    pure (.srgb rendering_intent)
  else if chunktype = ctcICP then do
    let buf ← ckRead ctx 4
    pure (.cicp ⟨at1 buf 0⟩ ⟨at1 buf 1⟩ ⟨at1 buf 2⟩ (at1 buf 3 > 0))
  else if chunktype = ctmDCV then do
    let buf ← ckRead ctx 24
    pure (.mdcv ⟨at2 buf 0, at2 buf 2, at2 buf 4, at2 buf 6, at2 buf 8,
      at2 buf 10, at2 buf 12, at2 buf 14, at4 buf 16, at4 buf 20⟩)
  else if chunktype = ctcLLI then do
    let buf ← ckRead ctx 8
    pure (.clli ⟨at4 buf 0, at4 buf 4⟩)
  else if chunktype = cttEXt then do
    let data ← ckRead ctx ctx.len
    let keyword_end := find_null data
    let string ← pxE (sliceFrom? data (keyword_end + 1))
    pure (.text ⟨data.take keyword_end, string⟩)
  else if chunktype = ctzTXt then do
    let data ← ckRead ctx ctx.len
    let keyword_end := find_null data
    let cmByte ← pxE (idx? data (keyword_end + 1))
    let compression_method ← enumE (PngCompressionMethod.ofNat? cmByte)
    let compressed_string ← pxE (sliceFrom? data (keyword_end + 2))
    pure (.ztxt ⟨data.take keyword_end, compression_method, compressed_string⟩)
  else if chunktype = ctiTXt then do
    let data ← ckRead ctx ctx.len
    let keyword_end := find_null data
    let langTail ← pxE (sliceFrom? data (keyword_end + 3))
    let language_end := find_null langTail + keyword_end + 3
    let tkTail ← pxE (sliceFrom? data (language_end + 1))
    let tkeyword_end := find_null tkTail + language_end + 1
    let compressedByte ← pxE (idx? data (keyword_end + 1))
    let cmByte ← pxE (idx? data (keyword_end + 2))
    let compression_method ← enumE (PngCompressionMethod.ofNat? cmByte)
    let language ← pxE (slice? data (keyword_end + 3) language_end)
    let tkBytes ← pxE (slice? data (language_end + 1) tkeyword_end)
    if utf8Valid tkBytes then do
      let compressed_string ← pxE (sliceFrom? data (tkeyword_end + 1))
      pure (.itxt ⟨data.take keyword_end, compressedByte > 0, compression_method,
        language, tkBytes, compressed_string⟩)
    else throw .invalidUtf8
  else if chunktype = ctbKGD then do
    match ihdrCtx with
    | Option.none => throw .unsetIhdr
    | some ihdrChunk => do
      let data ← ckRead ctx ctx.len
      match ihdrChunk with
      | .ihdr ih =>
        match ih.colour_type with
        | .greyscale | .greyscaleAlpha =>
          if ctx.len ≠ 2 then throw .invalidLength
          else pure (.bkgd (.greyscale (at2 data 0)))
        | .trueColour | .trueColourAlpha =>
          if ctx.len ≠ 6 then throw .invalidLength
          else pure (.bkgd (.trueColour (at2 data 0) (at2 data 2) (at2 data 4)))
        | .indexedColour =>
          if ctx.len ≠ 1 then throw .invalidLength
          else pure (.bkgd (.indexedColour (at1 data 0)))
      | _ => throw .wrongIhdr
  else if chunktype = cthIST then do
    let data ← ckRead ctx ctx.len
    pure (.hist ((List.range (ctx.len / 2)).map (fun n => at2 data (n * 2))))
  else if chunktype = ctpHYs then do
    let buf ← ckRead ctx 9
    let unit ← enumE (PngUnitType.ofNat? (at1 buf 8))
    pure (.phys (at4 buf 0) (at4 buf 4) unit)
  else if chunktype = cteXIf then do
    let profile ← ckRead ctx ctx.len
    pure (.exif profile)
  else if chunktype = ctsPLT then do
    let data ← ckRead ctx ctx.len
    let name_end := find_null data
    let depth ← pxE (idx? data (name_end + 1))
    let entry_size := depth / 8 * 4 + 2
    let num_entries := (ctx.len - name_end - 1) / entry_size
    let palette ← (List.range num_entries).mapM (fun i => do
      let start := name_end + 2 + i * entry_size
      if depth = 8 then do
        let red ← pxE (idx? data start)
        let green ← pxE (idx? data (start + 1))
        let blue ← pxE (idx? data (start + 2))
        let alpha ← pxE (idx? data (start + 3))
        let freq ← pxE (slice? data (start + 4) (start + 6))
        pure (⟨red, green, blue, alpha, beU16 freq⟩ : PngSuggestedPaletteEntry)
      else do
        let red ← pxE (slice? data start (start + 2))
        let green ← pxE (slice? data (start + 2) (start + 4))
        let blue ← pxE (slice? data (start + 4) (start + 6))
        let alpha ← pxE (slice? data (start + 6) (start + 8))
        let freq ← pxE (slice? data (start + 8) (start + 10))
        pure (⟨beU16 red, beU16 green, beU16 blue, beU16 alpha, beU16 freq⟩ :
          PngSuggestedPaletteEntry))
    pure (.splt ⟨data.take name_end, depth, palette⟩)
  else if chunktype = cttIME then do
    let buf ← ckRead ctx 7
    pure (.time (at2 buf 0) (at1 buf 2) (at1 buf 3) (at1 buf 4) (at1 buf 5) (at1 buf 6))
  else if chunktype = ctacTL then do
    let buf ← ckRead ctx 8
    pure (.actl (at4 buf 0) (at4 buf 4))
  else if chunktype = ctfcTL then do
    let buf ← ckRead ctx 26
    let dispose_op ← enumE (ApngDisposalOperator.ofNat? (at1 buf 24))
    let blend_op ← enumE (ApngBlendOperator.ofNat? (at1 buf 24))
    pure (.fctl ⟨at4 buf 0, at4 buf 4, at4 buf 8, at4 buf 12, at4 buf 16,
      at2 buf 20, at2 buf 22, dispose_op, blend_op⟩)
  else if chunktype = ctfdAT then do
    let buf ← ckRead ctx ctx.len
    let seqBytes ← pxE (slice? buf 0 4)
    let frame_data ← pxE (sliceFrom? buf 4)
    pure (.fdat ⟨beU32 seqBytes, frame_data⟩)
  else if chunktype = ctoFFs then do
    let buf ← ckRead ctx 9
    let unit ← enumE (PngUnitType.ofNat? (at1 buf 8))
    pure (.offs (at4 buf 0) (at4 buf 4) unit)
  else if chunktype = ctpCAL then do
    let data ← ckRead ctx ctx.len
    let name_end := find_null data
    let num_parameters ← pxE (idx? data (name_end + 9))
    let unitTail ← pxE (sliceFrom? data (name_end + 10))
    let unit_end := find_null unitTail + name_end + 10
    let parameters := pcalParams data unit_end num_parameters
    let zeroBytes ← pxE (slice? data name_end (name_end + 4))
    let maxBytes ← pxE (slice? data (name_end + 4) (name_end + 8))
    let equation_type ← pxE (idx? data (name_end + 8))
    let unit_name ← pxE (slice? data (name_end + 10) unit_end)
    pure (.pcal ⟨data.take name_end, beU32 zeroBytes, beU32 maxBytes,
      equation_type, unit_name, parameters⟩)
  else if chunktype = ctsCAL then do
    let data ← ckRead ctx ctx.len
    let widthTail ← pxE (sliceFrom? data 1)
    let width_end := find_null widthTail + 1
    let height_end := find_null (data.drop width_end) + width_end
    let unitByte ← pxE (idx? data 0)
    let unit ← enumE (PngUnitType.ofNat? unitByte)
    let pixel_width ← pxE (slice? data 1 width_end)
    let pixel_height ← pxE (slice? data width_end height_end)
    pure (.scal ⟨unit, pixel_width, pixel_height⟩)
  else if chunktype = ctgIFg then do
    let buf ← ckRead ctx 4
    pure (.gifg ⟨at1 buf 0⟩ (at1 buf 1 > 0) (at2 buf 2))
  else if chunktype = ctgIFx then do
    let data ← ckRead ctx ctx.len
    let app_id ← pxE (slice? data 0 8)
    let a8 ← pxE (idx? data 8)
    let a9 ← pxE (idx? data 9)
    let a10 ← pxE (idx? data 10)
    let app_data ← pxE (sliceFrom? data 11)
    pure (.gifx ⟨app_id, [a8, a9, a10], app_data⟩)
  else if chunktype = ctsTER then do
    let buf ← ckRead ctx 1
    pure (.ster (at1 buf 0))
  else if chunktype = ctJhdr then do
    let buf ← ckRead ctx 16
    let colour_type ← enumE (JngColourType.ofNat? (at1 buf 8))
    let image_sample_depth ← enumE (JngImageSampleDepth.ofNat? (at1 buf 9))
    let image_compression_method ← enumE (JngCompressionType.ofNat? (at1 buf 10))
    let image_interlace_method ← enumE (JngInterlaceMethod.ofNat? (at1 buf 11))
    let alpha_sample_depth ← enumE (JngAlphaSampleDepth.ofNat? (at1 buf 12))
    let alpha_compression_method ← enumE (JngCompressionType.ofNat? (at1 buf 13))
    let alpha_filter_method ← enumE (PngFilterMethod.ofNat? (at1 buf 14))
    let alpha_interlace_method ← enumE (JngInterlaceMethod.ofNat? (at1 buf 15))
    pure (.jhdr ⟨at4 buf 0, at4 buf 4, colour_type, image_sample_depth,
      image_compression_method, image_interlace_method, alpha_sample_depth,
      alpha_compression_method, alpha_filter_method, alpha_interlace_method⟩)
  else if chunktype = ctJDAT then do
    let data ← ckRead ctx ctx.len
    pure (.jdat data)
  else if chunktype = ctJDAA then do
    let data ← ckRead ctx ctx.len
    pure (.jdaa data)
  else if chunktype = ctJSEP then
    pure .jsep
  else
    throw .unhandledChunkType

/-- `PngChunkRef::read_chunk` (src/chunks.rs:924-1644): run the per-type
branch from payload start, then read the 4-byte trailer from the stream at
the position the branch left it and compare it against the CRC-32 of the
type code followed by the consumed payload bytes. -/
def PngChunkRef.read_chunk (file : List Nat) (r : PngChunkRef)
    (ihdrCtx : Option PngChunkData) : Except PngError PngChunkData :=
  match (decodeBranch ⟨file, r.position, r.length⟩ r.chunktype ihdrCtx).run 0 with
  | .error e => .error e
  | .ok (chunk, consumed) =>
    match readExact file (r.position + 8 + consumed) 4 with
    | Option.none => .error .ioErr
    | some buf4 =>
      if beU32 buf4 ≠ crc32 (r.chunktype ++ (file.drop (r.position + 8)).take consumed) then
        .error .crcMismatch
      else
        .ok chunk

deriving instance DecidableEq for Except

/-! ## Per-chunk codec pairs (`src/chunks/critical.rs`, `src/chunks/animation.rs`)

`from_contents_stream` reads a chunk's contents from the front of a byte
stream; `write_contents` produces the bytes written to the output stream
(the optional `data_crc` argument is fed exactly those bytes, in order, so
the byte list determines the CRC contribution). -/

/-- `Ihdr::from_contents_stream` (src/chunks/critical.rs:76-98). -/
def Ihdr.from_contents_stream (stream : List Nat) : Except PngError Ihdr :=
  match readExact stream 0 13 with
  | Option.none => .error .ioErr
  | some data =>
    match PngColourType.ofNat? (at1 data 9), PngCompressionMethod.ofNat? (at1 data 10),
        PngFilterMethod.ofNat? (at1 data 11), PngInterlaceMethod.ofNat? (at1 data 12) with
    | some ct, some cm, some fm, some im =>
      .ok ⟨at4 data 0, at4 data 4, at1 data 8, ct, cm, fm, im⟩
    | _, _, _, _ => .error .invalidEnumValue

/-- `Ihdr::write_contents` (src/chunks/critical.rs:100-130).  As in the
source, `height_bytes` is built from `self.width`. -/
def Ihdr.write_contents (self : Ihdr) : List Nat :=
  let width_bytes := u32ToBE self.width
  let height_bytes := u32ToBE self.width
  let rest_bytes := [self.bit_depth, self.colour_type.toNat,
    self.compression_method.toNat, self.filter_method.toNat,
    self.interlace_method.toNat]
  width_bytes ++ height_bytes ++ rest_bytes

/-- `Fctl::from_contents_stream` (src/chunks/animation.rs:103-127).  As in
the source, both `dispose_op` and `blend_op` are converted from `data[24]`. -/
def Fctl.from_contents_stream (stream : List Nat) : Except PngError Fctl :=
  match readExact stream 0 26 with
  | Option.none => .error .ioErr
  | some data =>
    match ApngDisposalOperator.ofNat? (at1 data 24), ApngBlendOperator.ofNat? (at1 data 24) with
    | some dop, some bop =>
      .ok ⟨at4 data 0, at4 data 4, at4 data 8, at4 data 12, at4 data 16,
        at2 data 20, at2 data 22, dop, bop⟩
    | _, _ => .error .invalidEnumValue

/-- `Fctl::write_contents` (src/chunks/animation.rs:129-173). -/
def Fctl.write_contents (self : Fctl) : List Nat :=
  u32ToBE self.sequence_number ++ u32ToBE self.width ++ u32ToBE self.height ++
  u32ToBE self.x_offset ++ u32ToBE self.y_offset ++
  u16ToBE self.delay_num ++ u16ToBE self.delay_den ++
  [self.dispose_op.toNat, self.blend_op.toNat]

/-- `Text::from_contents_stream` (src/chunks/text.rs:52-71): read `length`
bytes, split at the first NUL; `data[keyword_end + 1..]` panics when the
payload has no NUL byte. -/
def Text.from_contents_stream (stream : List Nat) (length : Nat) : Except PngError Text :=
  match readExact stream 0 length with
  | Option.none => .error .ioErr
  | some data =>
    let keyword_end := find_null data
    match sliceFrom? data (keyword_end + 1) with
    | Option.none => .error .rsPanic
    | some string => .ok ⟨data.take keyword_end, string⟩

/-- `Text::write_contents` (src/chunks/text.rs:77-101). -/
def Text.write_contents (self : Text) : List Nat :=
  self.keyword ++ [0] ++ self.string

/-! ## The forward PNG/APNG reader (`src/reader.rs`)

The reader's fields other than the stream handle; every scan re-seeks to
`next_chunk_pos` before reading, so the stream's own cursor never carries
information between calls and is not modelled. -/

structure PngReaderState where
  filetype : PngFileType
  width : Nat
  height : Nat
  bit_depth : Nat
  colour_type : PngColourType
  ihdr : Option Ihdr
  next_chunk_pos : Nat
  in_header : Bool
  first_frame_is_static : Bool
deriving DecidableEq

def pngSignature : List Nat := [0x89, 0x50, 0x4e, 0x47, 0x0d, 0x0a, 0x1a, 0x0a]

/-- `PngReader::from_stream` (src/reader.rs:67-89): check the signature and
build the initial reader state. -/
def PngReader.from_stream (file : List Nat) : Except PngError PngReaderState :=
  match readExact file 0 8 with
  | Option.none => .error .ioErr
  | some sig =>
    if sig ≠ pngSignature then .error .badSignature
    else .ok ⟨.png, 0, 0, 0, .greyscale, Option.none, 8, true, false⟩

/-- `PngChunkRef::from_stream` (src/chunks.rs:842-860): 4-byte big-endian
length then 4-byte type code at the given position. -/
def PngChunkRef.from_stream (file : List Nat) (pos : Nat) : Except PngError PngChunkRef :=
  match readExact file pos 4, readExact file (pos + 4) 4 with
  | some lenBytes, some chunktype => .ok ⟨pos, beU32 lenBytes, chunktype⟩
  | _, _ => .error .ioErr

/-- `PngReader::scan_next_chunk` (src/reader.rs:142-194).  Errors carry the
reader state as mutated up to the point of the early return. -/
def scan_next_chunk (file : List Nat) (s : PngReaderState) :
    Except (PngError × PngReaderState) (PngChunkRef × PngReaderState) :=
  match PngChunkRef.from_stream file s.next_chunk_pos with
  | .error e => .error (e, s)
  | .ok cr =>
    if cr.chunktype = ctJHDR ∨ cr.chunktype = ctJDAT ∨
        cr.chunktype = ctJDAA ∨ cr.chunktype = ctJSEP then
      .error (.invalidChunkTypeErr, s)
    else
      let s1 := { s with next_chunk_pos := s.next_chunk_pos + 4 + 4 + cr.length + 4 }
      if cr.chunktype = ctIHDR then
        match PngChunkRef.read_chunk file cr Option.none with
        | .error e => .error (e, s1)
        | .ok (.ihdr ih) =>
          .ok (cr, { s1 with ihdr := some ih, width := ih.width, height := ih.height, bit_depth := ih.bit_depth, colour_type := ih.colour_type })
        | .ok _ => .ok (cr, s1)
      else if cr.chunktype = ctIDAT then
        .ok (cr, { s1 with in_header := false })
      else if cr.chunktype = ctaCTL ∨ cr.chunktype = ctfdAT then
        .ok (cr, { s1 with filetype := .apng })
      else if cr.chunktype = ctfcTL then
        .ok (cr, { s1 with filetype := .apng, first_frame_is_static := s1.first_frame_is_static || s1.in_header })
      else
        .ok (cr, s1)

/-- `PngReader::scan_header_chunks` (src/reader.rs:108-120), with fuel for
the unbounded loop; `none` means the loop did not finish within `fuel`
iterations.  On hitting the first IDAT the cursor is rewound to it and the
accumulated (IDAT-less) list is returned. -/
def scan_header_chunksF (file : List Nat) :
    Nat → PngReaderState → List PngChunkRef →
    Option (Except (PngError × PngReaderState) (List PngChunkRef × PngReaderState))
  | 0, _, _ => Option.none
  | fuel + 1, s, acc =>
    match scan_next_chunk file s with
    | .error es => some (.error es)
    | .ok (cr, s') =>
      if cr.chunktype = ctIDAT then
        some (.ok (acc, { s' with next_chunk_pos := cr.position }))
      else
        scan_header_chunksF file fuel s' (acc ++ [cr])

/-- `PngReader::scan_chunks_filtered` (src/reader.rs:123-139), with fuel. -/
def scan_chunks_filteredF (file : List Nat) (test : List Nat → Bool) :
    Nat → PngReaderState → List PngChunkRef →
    Option (Except (PngError × PngReaderState) (List PngChunkRef × PngReaderState))
  | 0, _, _ => Option.none
  | fuel + 1, s, acc =>
    match scan_next_chunk file s with
    | .error es => some (.error es)
    | .ok (cr, s') =>
      let acc' := if test cr.chunktype then acc ++ [cr] else acc
      if cr.chunktype = ctIEND then some (.ok (acc', s'))
      else scan_chunks_filteredF file test fuel s' acc'

/-- `PngChunkRef::read_fctl_fdat_sequence_number` (src/chunks.rs:898-919).
The source seeks to `self.position` — the offset of the chunk's *length
field* — takes `self.length` bytes and reads a big-endian `u32` from there,
so the value returned is the 4 bytes at the start of the chunk header. -/
def read_fctl_fdat_sequence_number (file : List Nat) (r : PngChunkRef) :
    Except PngError Nat :=
  if r.chunktype = ctfcTL ∨ r.chunktype = ctfdAT then
    if 4 ≤ r.length ∧ r.position + 4 ≤ file.length then
      .ok (beU32 ((file.drop r.position).take 4))
    else .error .ioErr
  else .error .notFctlFdat

/-! ## APNG frame assembly (`PngReader::apng_scan_frames`, src/reader.rs:217-274) -/

/-- An APNG frame (`ApngFrame` of src/reader.rs). -/
structure ApngFrame where
  fctl : Fctl
  dats : List PngChunkRef
deriving DecidableEq

/-- `HashMap::insert`: replace the value of an existing key, else add the
entry.  The entry order of the model is irrelevant: only `get`/`len` are
used. -/
def hmInsert (m : List (Nat × Nat)) (k v : Nat) : List (Nat × Nat) :=
  if m.any (fun p => p.1 = k) then
    m.map (fun p => if p.1 = k then (k, v) else p)
  else m ++ [(k, v)]

/-- `HashMap` lookup. -/
def hmGet? (m : List (Nat × Nat)) (k : Nat) : Option Nat :=
  (m.find? (fun p => p.1 = k)).map (fun p => p.2)

/-- The `idat_seq_nums` map: each IDAT reference's position mapped, in list
order, to a generated sequence number starting at 1. -/
def idatSeqMap (idats : List PngChunkRef) : List (Nat × Nat) :=
  (idats.foldl (fun (acc : List (Nat × Nat) × Nat) cr =>
    (hmInsert acc.1 cr.position acc.2, acc.2 + 1)) ([], 1)).1

/-- The sort key computed by the `sort_by_cached_key` closure
(src/reader.rs:238-249): the generated number for an IDAT (a missing map
entry would be an index panic), else the `.unwrap()`ed result of
`read_fctl_fdat_sequence_number`, offset by the map size when the
first-frame-is-static flag is set and the value is positive. -/
def apngSortKey (file : List Nat) (static : Bool) (m : List (Nat × Nat))
    (cr : PngChunkRef) : Except PngError Nat :=
  if cr.chunktype = ctIDAT then
    match hmGet? m cr.position with
    | some v => .ok v
    | Option.none => .error .rsPanic
  else
    match read_fctl_fdat_sequence_number file cr with
    | .error _ => .error .rsPanic
    | .ok seq_num =>
      .ok (if static ∧ seq_num > 0 then seq_num + m.length else seq_num)

/-- Pair every reference with its cached sort key, in order, aborting on
the first key computation that panics (`sort_by_cached_key` computes every
key before comparing). -/
def apngKeyPairs (file : List Nat) (static : Bool) (m : List (Nat × Nat)) :
    List PngChunkRef → Except PngError (List (PngChunkRef × Nat))
  | [] => .ok []
  | cr :: rest =>
    match apngSortKey file static m cr with
    | .error e => .error e
    | .ok k =>
      match apngKeyPairs file static m rest with
      | .error e => .error e
      | .ok ps => .ok ((cr, k) :: ps)

/-- Stable insertion (new element goes after all existing elements whose
key is `≤` its own), modelling one step of a stable sort. -/
def stableInsertByKey (x : PngChunkRef × Nat) :
    List (PngChunkRef × Nat) → List (PngChunkRef × Nat)
  | [] => [x]
  | y :: ys => if y.2 ≤ x.2 then y :: stableInsertByKey x ys else x :: y :: ys

/-- Stable sort by precomputed key.  Rust's `sort_by_cached_key` is a
stable sort by the cached keys; a stable sorted permutation is unique, so
stable insertion sort computes the same list. -/
def stableSortByKey (l : List (PngChunkRef × Nat)) : List (PngChunkRef × Nat) :=
  l.foldl (fun acc x => stableInsertByKey x acc) []

/-- The frame-grouping loop (src/reader.rs:252-271): an fcTL reference is
decoded (CRC-checked) and opens a new frame, any other reference is pushed
onto the dats of the last open frame, and a data chunk with no preceding
fcTL is a fatal ordering error. -/
def groupFrames (file : List Nat) (ihdrCtx : Option Ihdr) :
    List PngChunkRef → List ApngFrame → Except PngError (List ApngFrame)
  | [], frames => .ok frames
  | cr :: rest, frames =>
    if cr.chunktype = ctfcTL then
      match PngChunkRef.read_chunk file cr (ihdrCtx.map PngChunkData.ihdr) with
      | .error e => .error e
      | .ok (.fctl f) => groupFrames file ihdrCtx rest (frames ++ [⟨f, []⟩])
      | .ok _ => groupFrames file ihdrCtx rest frames
    else
      match frames.getLast? with
      | Option.none => .error .noFctlFirst
      | some lastF =>
        groupFrames file ihdrCtx rest
          (frames.dropLast ++ [{ lastF with dats := lastF.dats ++ [cr] }])

/-- `PngReader::apng_scan_frames` (src/reader.rs:217-274), with fuel for
the scanning loop.  The filter choice uses the first-frame-is-static flag
as of entry; the map build and key offset use the flag as mutated by the
scan, exactly as the source reads `self.first_frame_is_static` again. -/
def apng_scan_framesF (file : List Nat) (fuel : Nat) (s : PngReaderState) :
    Option (Except (PngError × PngReaderState) (List ApngFrame × PngReaderState)) :=
  let staticAtEntry := s.first_frame_is_static
  let test : List Nat → Bool := fun ct =>
    if staticAtEntry then ct == ctIDAT || ct == ctfcTL || ct == ctfdAT
    else ct == ctfcTL || ct == ctfdAT
  match scan_chunks_filteredF file test fuel s [] with
  | Option.none => Option.none
  | some (.error es) => some (.error es)
  | some (.ok (chunkrefs, s')) =>
    let m := if s'.first_frame_is_static then
        idatSeqMap (chunkrefs.filter (fun cr => cr.chunktype == ctIDAT))
      else []
    match apngKeyPairs file s'.first_frame_is_static m chunkrefs with
    | .error e => some (.error (e, s'))
    | .ok pairs =>
      let sorted := (stableSortByKey pairs).map (fun p => p.1)
      match groupFrames file s'.ihdr sorted [] with
      | .error e => some (.error (e, s'))
      | .ok frames => some (.ok (frames, s'))

/-! ## The JNG reader's per-chunk CRC read loop (`src/jngreader.rs:127-140`) -/

def jngSignature : List Nat := [0x8b, 0x4a, 0x4e, 0x47, 0x0d, 0x0a, 0x1a, 0x0a]

def ctfRAc : List Nat := [0x66, 0x52, 0x41, 0x63]

/-- State of the `while toread > 0` loop: the `toread` counter, the
remaining capacity of the `take(length)` wrapper, and the absolute stream
position. -/
structure JngCrcLoopState where
  toread : Nat
  takeRem : Nat
  pos : Nat
deriving DecidableEq

/-- Bytes one `datastream.read(&mut buf)` call returns: bounded by the
64 KiB buffer, the `take` capacity and end-of-file (0 at EOF — and
`.unwrap_or(0)` maps even an error to 0). -/
def jngCrcReadSize (filelen : Nat) (st : JngCrcLoopState) : Nat :=
  min 65536 (min st.takeRem (filelen - st.pos))

/-- One iteration of the loop body (no-op once the guard fails). -/
def jngCrcLoopStep (filelen : Nat) (st : JngCrcLoopState) : JngCrcLoopState :=
  if st.toread > 0 then
    let readsize := jngCrcReadSize filelen st
    ⟨st.toread - readsize, st.takeRem - readsize, st.pos + readsize⟩
  else st

/-- `n` iterations of the loop body. -/
def jngCrcLoopIter (filelen : Nat) : Nat → JngCrcLoopState → JngCrcLoopState
  | 0, st => st
  | n + 1, st => jngCrcLoopIter filelen n (jngCrcLoopStep filelen st)

/-- `JNGFileReader::from_stream` (src/jngreader.rs:80-145) up to the entry
of the first chunk's CRC read loop: signature check, the chunk's
length/type reads, the invalid-chunk-type check, then the loop starts with
`toread = length`, an untouched `take(length)` wrapper and the stream
positioned after the chunk header. -/
def jngFirstChunkLoopInit (file : List Nat) : Except PngError JngCrcLoopState :=
  match readExact file 0 8 with
  | Option.none => .error .ioErr
  | some sig =>
    if sig ≠ jngSignature then .error .badSignature
    else
      match readExact file 8 4, readExact file 12 4 with
      | some lenBytes, some chunktype =>
        if chunktype = ctPLTE ∨ chunktype = cthIST ∨ chunktype = ctpCAL ∨
            chunktype = ctsBIT ∨ chunktype = ctsPLT ∨ chunktype = cttRNS ∨
            chunktype = ctfRAc ∨ chunktype = ctgIFg ∨ chunktype = ctgIFx ∨
            chunktype = ctaCTL ∨ chunktype = ctfcTL ∨ chunktype = ctfdAT then
          .error .invalidChunkTypeErr
        else
          .ok ⟨beU32 lenBytes, beU32 lenBytes, 16⟩
      | _, _ => .error .ioErr

/-- `PngReader::scan_all_chunks` (src/reader.rs:94-105), with fuel. -/
def scan_all_chunksF (file : List Nat) :
    Nat → PngReaderState → List PngChunkRef →
    Option (Except (PngError × PngReaderState) (List PngChunkRef × PngReaderState))
  | 0, _, _ => Option.none
  | fuel + 1, s, acc =>
    match scan_next_chunk file s with
    | .error es => some (.error es)
    | .ok (cr, s') =>
      if cr.chunktype = ctIEND then some (.ok (acc ++ [cr], s'))
      else scan_all_chunksF file fuel s' (acc ++ [cr])

/-- `PngReader::reset_next_chunk_position` (src/reader.rs:197-200). -/
def reset_next_chunk_position (s : PngReaderState) : PngReaderState :=
  { s with next_chunk_pos := 8, in_header := true }

/-- The error of a fuelled reader result, when it is one. -/
def scanErr? :
    Option (Except (PngError × PngReaderState) (List ApngFrame × PngReaderState)) →
    Option PngError
  | some (.error (e, _)) => some e
  | _ => Option.none

/-- The frame list of a fuelled `apng_scan_frames` result, when it is one. -/
def scanFrames? :
    Option (Except (PngError × PngReaderState) (List ApngFrame × PngReaderState)) →
    Option (List ApngFrame)
  | some (.ok (frames, _)) => some frames
  | _ => Option.none

/-- The trace of chunk references produced by repeatedly calling
`scan_next_chunk`, stopping at the first error (or when fuel runs out). -/
def scanTraceF (file : List Nat) : Nat → PngReaderState → List PngChunkRef
  | 0, _ => []
  | fuel + 1, s =>
    match scan_next_chunk file s with
    | .error _ => []
    | .ok (cr, s') => cr :: scanTraceF file fuel s'

/-- Modelled from the claim's words (spec §4.5 steps 1-4): synthetic IDAT
sequence numbers 0,1,2,… in file order; each fcTL/fdAT keyed by its true
4-byte payload sequence number (the big-endian `u32` at `position + 8`)
offset by the synthetic IDAT count.  This is the *claimed* key assignment,
stated for comparison with `apngSortKey`. -/
def apngClaimKeys (file : List Nat) (refs : List PngChunkRef) : Option (List Nat) :=
  let idats := refs.filter (fun cr => cr.chunktype == ctIDAT)
  refs.mapM (fun cr =>
    if cr.chunktype == ctIDAT then
      some (idats.findIdx (fun c => c == cr))
    else if cr.position + 12 ≤ file.length ∧ 4 ≤ cr.length then
      some (beU32 ((file.drop (cr.position + 8)).take 4) + idats.length)
    else Option.none)

/-! ## Concrete example containers -/

/-- A whole wire chunk: length, type code, payload, correct CRC trailer. -/
def exChunk (ct payload : List Nat) : List Nat :=
  u32ToBE payload.length ++ ct ++ payload ++ u32ToBE (crc32 (ct ++ payload))

/-- An fcTL payload with the given sequence number, a 1×1 frame at the
origin, delay 1/10, dispose 0 and blend 0. -/
def exFctlPayload (seq : Nat) : List Nat :=
  u32ToBE seq ++ u32ToBE 1 ++ u32ToBE 1 ++ u32ToBE 0 ++ u32ToBE 0 ++
  u16ToBE 1 ++ u16ToBE 10 ++ [0, 0]

/-- The reader state `PngReader::from_stream` constructs. -/
def initState : PngReaderState :=
  ⟨.png, 0, 0, 0, .greyscale, Option.none, 8, true, false⟩

/-- A static-first-frame APNG: fcTL(seq 0), IDAT, fcTL(seq 1), fdAT(seq 2),
IEND. -/
def exApngFile : List Nat :=
  pngSignature ++ exChunk ctfcTL (exFctlPayload 0) ++ exChunk ctIDAT [0xAA] ++
  exChunk ctfcTL (exFctlPayload 1) ++ exChunk ctfdAT (u32ToBE 2 ++ [1, 2, 3, 4]) ++
  exChunk ctIEND []

/-- An APNG whose two fcTL chunks appear out of file order (sequence
numbers 1 then 0). -/
def exOoOFile : List Nat :=
  pngSignature ++ exChunk ctfcTL (exFctlPayload 1) ++ exChunk ctfcTL (exFctlPayload 0) ++
  exChunk ctIEND []

/-- The reader state after `scan_all_chunks` over `exApngFile`. -/
def exApngScannedState : PngReaderState :=
  ⟨.apng, 0, 0, 0, .greyscale, Option.none, 129, false, true⟩

/-- The IDAT/fcTL/fdAT references of `exApngFile`, in file order. -/
def exApngRefs4 : List PngChunkRef :=
  [⟨8, 26, ctfcTL⟩, ⟨46, 1, ctIDAT⟩, ⟨59, 26, ctfcTL⟩, ⟨97, 8, ctfdAT⟩]

/-- The `idat_seq_nums` map built for `exApngRefs4`. -/
def exM : List (Nat × Nat) :=
  idatSeqMap (exApngRefs4.filter (fun cr => cr.chunktype == ctIDAT))

/-- A PNG whose single chunk after the signature is an fdAT with declared
length 0. -/
def exFdat0File : List Nat :=
  pngSignature ++ exChunk ctfdAT [] ++ exChunk ctIEND []

/-- A PNG whose first chunk is an animation control (`acTL`) chunk. -/
def exActlFile : List Nat :=
  pngSignature ++ exChunk ctacTL (u32ToBE 1 ++ u32ToBE 0) ++ exChunk ctIEND []

/-- A 1×1 greyscale IHDR payload. -/
def exIhdrPayload1 : List Nat := u32ToBE 1 ++ u32ToBE 1 ++ [8, 0, 0, 0, 0]

/-- A minimal PNG: IHDR, one IDAT, IEND. -/
def exPngFile : List Nat :=
  pngSignature ++ exChunk ctIHDR exIhdrPayload1 ++ exChunk ctIDAT [0xAA] ++ exChunk ctIEND []

/-- A truncated JNG: signature, then a JDAT chunk declaring 10 payload
bytes of which only 2 are present before end-of-file. -/
def exJngFile : List Nat := jngSignature ++ u32ToBE 10 ++ ctJDAT ++ [0xAB, 0xCD]

/-- A tEXt chunk whose 1-byte payload has no NUL terminator. -/
def exText1File : List Nat :=
  u32ToBE 1 ++ cttEXt ++ [0x61] ++ u32ToBE (crc32 (cttEXt ++ [0x61]))

/-- A tEXt chunk whose 3-byte payload `"abc"` has no NUL terminator. -/
def exText3File : List Nat :=
  u32ToBE 3 ++ cttEXt ++ [0x61, 0x62, 0x63] ++ u32ToBE (crc32 (cttEXt ++ [0x61, 0x62, 0x63]))

/-- A well-formed gAMA chunk (gamma 100000). -/
def exGamaPayload : List Nat := [0, 1, 134, 160]

def exGamaFile : List Nat :=
  u32ToBE 4 ++ ctgAMA ++ exGamaPayload ++ u32ToBE (crc32 (ctgAMA ++ exGamaPayload))

/-- An IHDR whose colour-type byte is 1 (not a legal colour type) and whose
4-byte trailer (all zeroes) differs from the computed CRC. -/
def exBadIhdrPayload : List Nat := u32ToBE 1 ++ u32ToBE 1 ++ [8, 1, 0, 0, 0]

def exBadIhdrFile : List Nat := u32ToBE 13 ++ ctIHDR ++ exBadIhdrPayload ++ [0, 0, 0, 0]

/-- Example payloads for the encode/decode round trip. -/
def exIhdr : Ihdr := ⟨1, 2, 8, .greyscale, .zlib, .adaptive, .none⟩

/-- The 13 wire bytes of `exIhdr` (width 1, height 2). -/
def exIhdrWire : List Nat := u32ToBE 1 ++ u32ToBE 2 ++ [8, 0, 0, 0, 0]

def exFctl : Fctl := ⟨0, 1, 1, 0, 0, 1, 10, .none, .over⟩

/-- The 26 wire bytes of `exFctl` (dispose byte 0, blend byte 1). -/
def exFctlWire : List Nat :=
  u32ToBE 0 ++ u32ToBE 1 ++ u32ToBE 1 ++ u32ToBE 0 ++ u32ToBE 0 ++
  u16ToBE 1 ++ u16ToBE 10 ++ [0, 1]

/-- The spec-level shape of the `idat_seq_nums` map: consecutive numbers
from `c` paired with the positions, in order. -/
def idatSeqAssign (c : Nat) : List PngChunkRef → List (Nat × Nat)
  | [] => []
  | cr :: l => (cr.position, c) :: idatSeqAssign (c + 1) l

/-! ## Helper lemmas -/

theorem stableInsertByKey_perm (x : PngChunkRef × Nat) (l : List (PngChunkRef × Nat)) :
    List.Perm (stableInsertByKey x l) (x :: l) := by
  induction l with
  | nil => simp [stableInsertByKey]
  | cons y ys ih =>
    simp only [stableInsertByKey]
    split
    · exact (ih.cons y).trans (List.Perm.swap x y ys)
    · exact List.Perm.refl _

theorem stableSortByKey_go_perm (l : List (PngChunkRef × Nat)) :
    ∀ acc, List.Perm (l.foldl (fun acc x => stableInsertByKey x acc) acc) (acc ++ l) := by
  induction l with
  | nil => intro acc; simp
  | cons x xs ih =>
    intro acc
    simp only [List.foldl_cons]
    exact (ih (stableInsertByKey x acc)).trans
      (((stableInsertByKey_perm x acc).append_right xs).trans
        (List.perm_middle.symm.trans (List.Perm.refl _)))

theorem stableSortByKey_perm (l : List (PngChunkRef × Nat)) :
    List.Perm (stableSortByKey l) l := by
  simpa using stableSortByKey_go_perm l []

theorem stableInsertByKey_pairwise (x : PngChunkRef × Nat) (l : List (PngChunkRef × Nat))
    (h : l.Pairwise (fun a b => a.2 ≤ b.2)) :
    (stableInsertByKey x l).Pairwise (fun a b => a.2 ≤ b.2) := by
  induction l with
  | nil => simp [stableInsertByKey]
  | cons y ys ih =>
    rw [List.pairwise_cons] at h
    obtain ⟨hy, hys⟩ := h
    simp only [stableInsertByKey]
    split
    · rename_i hle
      refine List.Pairwise.cons ?_ (ih hys)
      intro z hz
      rcases List.mem_cons.1 (((stableInsertByKey_perm x ys).mem_iff).1 hz) with rfl | hz'
      · exact hle
      · exact hy z hz'
    · rename_i hlt
      refine List.Pairwise.cons ?_ (List.Pairwise.cons hy hys)
      intro z hz
      rcases List.mem_cons.1 hz with rfl | hz'
      · omega
      · exact le_trans (by omega) (hy z hz')

theorem stableSortByKey_go_pairwise (l : List (PngChunkRef × Nat)) :
    ∀ acc, acc.Pairwise (fun a b => a.2 ≤ b.2) →
      (l.foldl (fun acc x => stableInsertByKey x acc) acc).Pairwise (fun a b => a.2 ≤ b.2) := by
  induction l with
  | nil => intro acc h; simpa using h
  | cons x xs ih =>
    intro acc h
    exact ih _ (stableInsertByKey_pairwise x acc h)

theorem stableSortByKey_pairwise (l : List (PngChunkRef × Nat)) :
    (stableSortByKey l).Pairwise (fun a b => a.2 ≤ b.2) :=
  stableSortByKey_go_pairwise l [] (by simp)

theorem idatSeqAssign_length (c : Nat) (l : List PngChunkRef) :
    (idatSeqAssign c l).length = l.length := by
  induction l generalizing c with
  | nil => rfl
  | cons cr l ih => simp [idatSeqAssign, ih]

theorem idatFold_eq (l : List PngChunkRef) :
    ∀ (m : List (Nat × Nat)) (c : Nat),
      (∀ cr ∈ l, m.any (fun p => p.1 = cr.position) = false) →
      (l.map PngChunkRef.position).Nodup →
      (l.foldl (fun acc cr => (hmInsert acc.1 cr.position acc.2, acc.2 + 1)) (m, c)).1 =
        m ++ idatSeqAssign c l := by
  induction l with
  | nil => intro m c _ _; simp [idatSeqAssign]
  | cons cr l ih =>
    intro m c hdisj hnd
    simp only [List.foldl_cons]
    have hfresh : m.any (fun p => p.1 = cr.position) = false :=
      hdisj cr (List.mem_cons_self cr l)
    have hins : hmInsert m cr.position c = m ++ [(cr.position, c)] := by
      simp [hmInsert, hfresh]
    rw [hins]
    rw [List.map_cons, List.nodup_cons] at hnd
    have hdisj' : ∀ cr' ∈ l, (m ++ [(cr.position, c)]).any (fun p => p.1 = cr'.position) = false := by
      intro cr' hcr'
      rw [List.any_append]
      have h1 : m.any (fun p => p.1 = cr'.position) = false :=
        hdisj cr' (List.mem_cons_of_mem cr hcr')
      have h2 : cr.position ≠ cr'.position := by
        intro heq
        exact hnd.1 (heq ▸ List.mem_map_of_mem PngChunkRef.position hcr')
      simp [h1, h2]
    rw [ih (m ++ [(cr.position, c)]) (c + 1) hdisj' hnd.2]
    simp [idatSeqAssign]

theorem idatSeqMap_eq (l : List PngChunkRef) (hnd : (l.map PngChunkRef.position).Nodup) :
    idatSeqMap l = idatSeqAssign 1 l := by
  have := idatFold_eq l [] 1 (by intro cr _; rfl) hnd
  simpa [idatSeqMap] using this

theorem hmGet_idatSeqAssign (l : List PngChunkRef) :
    ∀ (c : Nat) (i : Nat) (h : i < l.length),
      (l.map PngChunkRef.position).Nodup →
      hmGet? (idatSeqAssign c l) ((l.get ⟨i, h⟩).position) = some (c + i) := by
  induction l with
  | nil => intro c i h; exact absurd h (by simp)
  | cons cr l ih =>
    intro c i h hnd
    rw [List.map_cons, List.nodup_cons] at hnd
    match i with
    | 0 => simp [idatSeqAssign, hmGet?, List.find?]
    | i + 1 =>
      have hi : i < l.length := by simpa using h
      have hne : cr.position ≠ (l.get ⟨i, hi⟩).position := by
        intro heq
        exact hnd.1 (heq ▸ List.mem_map_of_mem PngChunkRef.position (l.get_mem i hi))
      have hg : ((cr :: l).get ⟨i + 1, h⟩) = l.get ⟨i, hi⟩ := rfl
      rw [hg]
      have hrec := ih (c + 1) i hi hnd.2
      unfold hmGet? at hrec ⊢
      unfold idatSeqAssign
      rw [List.find?_cons_of_neg _ (by simpa using hne)]
      rw [show c + (i + 1) = c + 1 + i by omega]
      exact hrec

/-- `apngKeyPairs` succeeds with pairs whose first components are exactly
the input references, in order. -/
theorem apngKeyPairs_fst (file : List Nat) (static : Bool) (m : List (Nat × Nat)) :
    ∀ (refs : List PngChunkRef) (pairs : List (PngChunkRef × Nat)),
      apngKeyPairs file static m refs = .ok pairs → pairs.map Prod.fst = refs := by
  intro refs
  induction refs with
  | nil => intro pairs h; simp only [apngKeyPairs] at h; cases h; rfl
  | cons cr rest ih =>
    intro pairs h
    simp only [apngKeyPairs] at h
    cases hk : apngSortKey file static m cr with
    | error e => rw [hk] at h; cases h
    | ok k =>
      rw [hk] at h
      cases hp : apngKeyPairs file static m rest with
      | error e => rw [hp] at h; cases h
      | ok ps => rw [hp] at h; cases h; simp [ih ps hp]

theorem PngChunkRef.from_stream_pos (file : List Nat) (p : Nat) (cr : PngChunkRef)
    (h : PngChunkRef.from_stream file p = .ok cr) : cr.position = p := by
  unfold PngChunkRef.from_stream at h
  cases h1 : readExact file p 4 with
  | none => rw [h1] at h; cases h
  | some lenBytes =>
    cases h2 : readExact file (p + 4) 4 with
    | none => rw [h1, h2] at h; cases h
    | some typeBytes => rw [h1, h2] at h; cases h; rfl

/-- Every successful `scan_next_chunk` returns precisely the reference the
chunk-reference scan at the cursor produced. -/
theorem scan_next_chunk_ok_from_stream (file : List Nat) (s : PngReaderState)
    (cr : PngChunkRef) (s₁ : PngReaderState)
    (h : scan_next_chunk file s = .ok (cr, s₁)) :
    PngChunkRef.from_stream file s.next_chunk_pos = .ok cr := by
  unfold scan_next_chunk at h
  cases hfs : PngChunkRef.from_stream file s.next_chunk_pos with
  | error e => rw [hfs] at h; cases h
  | ok cr' =>
    rw [hfs] at h
    simp only at h
    split at h
    · cases h
    · split at h
      · split at h <;> first | (cases h; rfl) | cases h
      · split at h
        · cases h; rfl
        · split at h
          · cases h; rfl
          · split at h <;> (cases h; rfl)

/-- Scanning at a cursor that points at an IDAT chunk succeeds and returns
that chunk. -/
theorem scan_next_chunk_idat (file : List Nat) (s : PngReaderState) (cr : PngChunkRef)
    (h1 : PngChunkRef.from_stream file s.next_chunk_pos = .ok cr)
    (h2 : cr.chunktype = ctIDAT) :
    scan_next_chunk file s =
      .ok (cr, { s with next_chunk_pos := s.next_chunk_pos + 4 + 4 + cr.length + 4, in_header := false }) := by
  unfold scan_next_chunk
  rw [h1]
  simp only
  rw [if_neg (by rw [h2]; decide)]
  rw [if_neg (by rw [h2]; decide)]
  rw [if_pos h2]

/-- Invariant of the JNG CRC read loop: once the bytes remaining in the
file are fewer than `toread`, every iterate keeps `toread` positive (the
guard never becomes false). -/
theorem jng_loop_invariant (filelen : Nat) :
    ∀ (n : Nat) (st : JngCrcLoopState), filelen - st.pos < st.toread →
      0 < (jngCrcLoopIter filelen n st).toread ∧
      filelen - (jngCrcLoopIter filelen n st).pos < (jngCrcLoopIter filelen n st).toread := by
  intro n
  induction n with
  | zero => intro st h; simp only [jngCrcLoopIter]; exact ⟨by omega, h⟩
  | succ n ih =>
    intro st h
    have hpos : 0 < st.toread := by omega
    have hstep : jngCrcLoopStep filelen st =
        ⟨st.toread - jngCrcReadSize filelen st, st.takeRem - jngCrcReadSize filelen st,
         st.pos + jngCrcReadSize filelen st⟩ := by
      unfold jngCrcLoopStep
      rw [if_pos hpos]
    have hrs : jngCrcReadSize filelen st ≤ filelen - st.pos := by
      unfold jngCrcReadSize; omega
    have hinv : filelen - (jngCrcLoopStep filelen st).pos < (jngCrcLoopStep filelen st).toread := by
      rw [hstep]; simp only; omega
    have := ih (jngCrcLoopStep filelen st) hinv
    simpa [jngCrcLoopIter] using this

/-- The reader state after `scan_header_chunks` over `exPngFile`. -/
def exHdrState : PngReaderState :=
  ⟨.png, 1, 1, 8, .greyscale, some ⟨1, 1, 8, .greyscale, .zlib, .adaptive, .none⟩, 33, false, false⟩

set_option maxRecDepth 10000

/-! ## Claim theorems -/

/-- C1: the claim states `decode(encode(payload)) == payload` for every
chunk payload variant and `encode(decode(wire)) == wire` byte-exactly, in
particular for IHDR's width/height and fcTL's dispose_op/blend_op
independently.  The code violates it: `Ihdr::write_contents` writes
`self.width` for the height field, and `Fctl::from_contents_stream` decodes
`blend_op` from byte 24 (the dispose byte) instead of byte 25.  Evaluated
here: an IHDR of width 1, height 2 round-trips to height 1; a wire IHDR
with height 2 re-encodes differently; an fcTL with blend `Over` round-trips
to blend `Source`; a wire fcTL with blend byte 1 re-encodes with blend
byte 0. -/
theorem codec_roundtrip_bug :
    Ihdr.from_contents_stream (Ihdr.write_contents exIhdr) =
      .ok ⟨1, 1, 8, .greyscale, .zlib, .adaptive, .none⟩ ∧
    Ihdr.from_contents_stream exIhdrWire = .ok exIhdr ∧
    Ihdr.write_contents exIhdr ≠ exIhdrWire ∧
    Fctl.from_contents_stream (Fctl.write_contents exFctl) =
      .ok ⟨0, 1, 1, 0, 0, 1, 10, .none, .source⟩ ∧
    Fctl.from_contents_stream exFctlWire = .ok ⟨0, 1, 1, 0, 0, 1, 10, .none, .source⟩ ∧
    Fctl.write_contents ⟨0, 1, 1, 0, 0, 1, 10, .none, .source⟩ ≠ exFctlWire := by
  decide

/-- C5: the claim states that scanning an acTL, fcTL or fdAT chunk flips
the reader's filetype to Apng, whichever of the three is seen first.  The
code's `scan_next_chunk` matches `b"aCTL"` (capital C) instead of the APNG
type code `acTL`, so scanning a real acTL chunk returns it without touching
`filetype`; fcTL and fdAT do flip it.  Evaluated on a PNG whose first chunk
is an acTL: the scan succeeds and `filetype` is still `Png`. -/
theorem actl_filetype_bug :
    PngReader.from_stream exActlFile = .ok initState ∧
    scan_next_chunk exActlFile initState =
      .ok (⟨8, 8, ctacTL⟩, ⟨.png, 0, 0, 0, .greyscale, Option.none, 28, true, false⟩) ∧
    ctacTL ≠ ctaCTL ∧
    (PngFileType.png ≠ PngFileType.apng) := by
  decide

/-- C6: the claim states that `read_chunk` and `apng_scan_frames` are total
(an `Ok`/`Err` for every input, never a panic).  The code panics:
`read_chunk`'s tEXt branch slices `data[keyword_end + 1..]`, out of bounds
when the payload has no NUL byte; `apng_scan_frames` `.unwrap()`s the
sequence-number read, which fails for an fdAT whose declared length is
under 4 bytes.  `PngError.rsPanic` marks the modelled Rust panic (not an
`Err` return). -/
theorem decode_totality_bug :
    PngChunkRef.read_chunk exText1File ⟨0, 1, cttEXt⟩ Option.none = .error .rsPanic ∧
    PngReader.from_stream exFdat0File = .ok initState ∧
    scanErr? (apng_scan_framesF exFdat0File 3 initState) = some .rsPanic := by
  decide

/-- C7: the claim states that a NUL-less tEXt payload decodes leniently
with the keyword spanning the whole payload and an empty string.  The code
computes `keyword_end = find_null(data) = data.len()` and then slices
`data[keyword_end + 1..]`, which is out of bounds: the decode panics
instead of succeeding.  Evaluated on the payload `"abc"` both through
`Text::from_contents_stream` and through `read_chunk`'s tEXt branch. -/
theorem text_missing_nul_bug :
    Text.from_contents_stream [0x61, 0x62, 0x63] 3 = .error .rsPanic ∧
    PngChunkRef.read_chunk exText3File ⟨0, 3, cttEXt⟩ Option.none = .error .rsPanic ∧
    find_null [0x61, 0x62, 0x63] = 3 := by
  decide

/-- C9: the claim states `JNGFileReader::from_stream` terminates on every
finite stream, erroring when a chunk's declared length exceeds the bytes
remaining.  The code's CRC read loop decrements `toread` by
`read(..).unwrap_or(0)`, which is 0 at end-of-file, so on `exJngFile`
(a JDAT declaring 10 bytes with only 2 present) the loop guard
`toread > 0` holds after every number of iterations: the loop never
exits. -/
theorem jng_crc_loop_divergence :
    jngFirstChunkLoopInit exJngFile = .ok ⟨10, 10, 16⟩ ∧
    ∀ n, 0 < (jngCrcLoopIter exJngFile.length n ⟨10, 10, 16⟩).toread :=
  ⟨by decide, fun n => (jng_loop_invariant exJngFile.length n ⟨10, 10, 16⟩ (by decide)).1⟩

/-- C10: when `scan_next_chunk` scans a chunk whose type code is JHDR,
JDAT, JDAA or JSEP it fails with the invalid-chunk-type error before any
field of the reader is assigned, so the returned state is the input state:
cursor, filetype, width, height, bit_depth, colour_type, stored IHDR and
both flags all keep their prior values. -/
theorem scan_invalid_type_atomic (file : List Nat) (s : PngReaderState) (cr : PngChunkRef)
    (h1 : PngChunkRef.from_stream file s.next_chunk_pos = .ok cr)
    (h2 : cr.chunktype = ctJHDR ∨ cr.chunktype = ctJDAT ∨
      cr.chunktype = ctJDAA ∨ cr.chunktype = ctJSEP) :
    scan_next_chunk file s = .error (.invalidChunkTypeErr, s) := by
  unfold scan_next_chunk
  rw [h1]
  simp only
  rw [if_pos h2]

/-- Witness for C10: a PNG whose first chunk header declares a JHDR. -/
theorem scan_invalid_type_atomic_witness :
    scan_next_chunk (pngSignature ++ u32ToBE 16 ++ ctJHDR) initState =
      .error (.invalidChunkTypeErr, initState) :=
  scan_invalid_type_atomic (pngSignature ++ u32ToBE 16 ++ ctJHDR) initState
    ⟨8, 16, ctJHDR⟩ (by decide) (by decide)

/-- C4 (amended): for any chunk whose payload branch decode succeeds having
consumed the whole declared payload and whose trailer is present,
`read_chunk` fails with `CrcMismatch` exactly when the 4-byte trailer
differs from the CRC-32 of the type code followed by the payload bytes, and
a decoded value is only returned when the trailer matches. -/
theorem read_chunk_crc_amended (file : List Nat) (r : PngChunkRef)
    (ihdrCtx : Option PngChunkData) (d : PngChunkData)
    (hbranch : (decodeBranch ⟨file, r.position, r.length⟩ r.chunktype ihdrCtx).run 0 =
      .ok (d, r.length))
    (htrailer : r.position + 8 + r.length + 4 ≤ file.length) :
    (PngChunkRef.read_chunk file r ihdrCtx = .error .crcMismatch ↔
      beU32 ((file.drop (r.position + 8 + r.length)).take 4) ≠
        crc32 (r.chunktype ++ (file.drop (r.position + 8)).take r.length)) ∧
    (∀ d', PngChunkRef.read_chunk file r ihdrCtx = .ok d' →
      beU32 ((file.drop (r.position + 8 + r.length)).take 4) =
        crc32 (r.chunktype ++ (file.drop (r.position + 8)).take r.length)) := by
  unfold PngChunkRef.read_chunk
  rw [hbranch]
  simp only [readExact, if_pos htrailer]
  split
  · rename_i hcrc
    exact ⟨by simp [hcrc], fun d' h => by cases h⟩
  · rename_i hcrc
    refine ⟨by simp [hcrc], fun d' _ => not_not.mp hcrc⟩

/-- Witness for C4: a well-formed gAMA chunk decodes, its branch consumes
the declared 4 bytes, and by the theorem the result is not a CRC
mismatch (its trailer is the computed CRC). -/
theorem read_chunk_crc_amended_witness :
    ((decodeBranch ⟨exGamaFile, 0, 4⟩ ctgAMA Option.none).run 0 =
      .ok (.gama 100000, 4)) ∧
    PngChunkRef.read_chunk exGamaFile ⟨0, 4, ctgAMA⟩ Option.none ≠ .error .crcMismatch :=
  ⟨by decide, fun hc =>
    absurd ((read_chunk_crc_amended exGamaFile ⟨0, 4, ctgAMA⟩ Option.none (.gama 100000)
      (by decide) (by decide)).1.1 hc) (by decide)⟩

/-- Counterexample to C4 as stated: on an IHDR whose colour-type byte is
invalid and whose trailer differs from the computed CRC, `read_chunk` does
*not* return the CRC-mismatch error (the branch error pre-empts the CRC
check), refuting "CRC-mismatch error iff the trailer differs". -/
theorem read_chunk_crc_counterexample :
    beU32 [0, 0, 0, 0] ≠ crc32 (ctIHDR ++ exBadIhdrPayload) ∧
    PngChunkRef.read_chunk exBadIhdrFile ⟨0, 13, ctIHDR⟩ Option.none = .error .invalidEnumValue ∧
    PngChunkRef.read_chunk exBadIhdrFile ⟨0, 13, ctIHDR⟩ Option.none ≠ .error .crcMismatch := by
  decide

/-- C3: the claim states out-of-order fcTL/fdAT chunks are reordered to
ascending sequence number before grouping, and a static first frame plus N
fcTL/fdAT pairs yields N+1 frames with frame 0 holding the IDAT refs.  The
code violates both: `read_fctl_fdat_sequence_number` seeks to the chunk's
*length field* (`self.position`, not `position + 8`), so the sort key is
the declared length, not the sequence number.  On `exApngFile` (static
first frame, one IDAT, fcTL seq 0, fcTL seq 1, fdAT seq 2) the IDAT sorts
first and grouping fails with the data-before-fcTL error instead of
producing 2 frames; on `exOoOFile` (fcTL seq 1 before fcTL seq 0, equal
keys 26) the stable sort keeps file order and the frames come out with
sequence numbers 1, 0 — not reordered to ascending. -/
theorem apng_frame_assembly_bug :
    PngReader.from_stream exApngFile = .ok initState ∧
    scan_all_chunksF exApngFile 8 initState [] =
      some (.ok ([⟨8, 26, ctfcTL⟩, ⟨46, 1, ctIDAT⟩, ⟨59, 26, ctfcTL⟩, ⟨97, 8, ctfdAT⟩,
        ⟨117, 0, ctIEND⟩], exApngScannedState)) ∧
    scanErr? (apng_scan_framesF exApngFile 8 (reset_next_chunk_position exApngScannedState)) =
      some .noFctlFirst ∧
    (scanFrames? (apng_scan_framesF exOoOFile 8 initState)).map
      (fun fs => fs.map (fun fr => fr.fctl.sequence_number)) = some [1, 0] := by
  decide

/-- C2 (amended): in `apng_scan_frames`, when first-frame-is-static is set,
each IDAT reference is assigned, in file order, the synthetic sequence
number 1, 2, 3, …; each fcTL/fdAT reference's key is the big-endian `u32`
read at the chunk's position — its *length field*, not the payload
sequence number — offset by the number of IDAT map entries only when that
value is positive; the references are then stable-sorted by this combined
key (the result is a permutation of the scanned references, pairwise
ordered by key). -/
theorem apng_sort_amended (file : List Nat) (static : Bool)
    (refs idats : List PngChunkRef) (m : List (Nat × Nat))
    (pairs : List (PngChunkRef × Nat))
    (hidats : idats = refs.filter (fun cr => cr.chunktype == ctIDAT))
    (hm : m = idatSeqMap idats)
    (hnd : (idats.map PngChunkRef.position).Nodup)
    (hpairs : apngKeyPairs file static m refs = .ok pairs) :
    (∀ i (h : i < idats.length), apngSortKey file static m (idats.get ⟨i, h⟩) = .ok (i + 1)) ∧
    (∀ cr ∈ refs, cr.chunktype ≠ ctIDAT → ∀ v, read_fctl_fdat_sequence_number file cr = .ok v →
      apngSortKey file static m cr = .ok (if static ∧ v > 0 then v + idats.length else v)) ∧
    List.Perm ((stableSortByKey pairs).map Prod.fst) refs ∧
    (stableSortByKey pairs).Pairwise (fun a b => a.2 ≤ b.2) := by
  have hmlen : m.length = idats.length := by
    rw [hm, idatSeqMap_eq idats hnd, idatSeqAssign_length]
  refine ⟨?_, ?_, ?_, stableSortByKey_pairwise pairs⟩
  · intro i h
    have hty : (idats.get ⟨i, h⟩).chunktype = ctIDAT := by
      have hmem := idats.get_mem i h
      generalize idats.get ⟨i, h⟩ = x at hmem ⊢
      rw [hidats] at hmem
      have := (List.mem_filter.mp hmem).2
      simpa using this
    have hget := hmGet_idatSeqAssign idats 1 i h hnd
    unfold apngSortKey
    rw [if_pos hty, hm, idatSeqMap_eq idats hnd, hget]
    simp [Nat.add_comm]
  · intro cr _ hne v hv
    unfold apngSortKey
    rw [if_neg hne, hv, hmlen]
  · have hfst := apngKeyPairs_fst file static m refs pairs hpairs
    have hperm := (stableSortByKey_perm pairs).map Prod.fst
    rwa [hfst] at hperm

/-- Witness for C2: the amended key/sort behaviour at the concrete static
APNG `exApngFile` with references `exApngRefs4`. -/
theorem apng_sort_amended_witness :
    (((exApngRefs4.filter (fun cr => cr.chunktype == ctIDAT)).map PngChunkRef.position).Nodup) ∧
    List.Perm ((stableSortByKey (exApngRefs4.zip [27, 1, 27, 9])).map Prod.fst) exApngRefs4 :=
  ⟨by decide,
    (apng_sort_amended exApngFile true exApngRefs4
      (exApngRefs4.filter (fun cr => cr.chunktype == ctIDAT)) exM
      (exApngRefs4.zip [27, 1, 27, 9]) rfl rfl (by decide) (by decide)).2.2.1⟩

/-- Counterexample to C2 as stated: on `exApngFile` the code's cached keys
are `[27, 1, 27, 9]` — the first IDAT gets 1 (not 0), and the fcTL/fdAT
keys are their declared lengths plus the offset, not their payload sequence
numbers — while the claim's key assignment (synthetic 0,1,2,… and true
payload sequence numbers offset by the IDAT count) gives `[1, 0, 2, 3]`;
the two stable-sorted orders differ. -/
theorem apng_sort_claim_counterexample :
    scan_chunks_filteredF exApngFile
      (fun ct => ct == ctIDAT || ct == ctfcTL || ct == ctfdAT) 8
      (reset_next_chunk_position exApngScannedState) [] =
      some (.ok (exApngRefs4, exApngScannedState)) ∧
    apngKeyPairs exApngFile true exM exApngRefs4 = .ok (exApngRefs4.zip [27, 1, 27, 9]) ∧
    apngClaimKeys exApngFile exApngRefs4 = some [1, 0, 2, 3] ∧
    (stableSortByKey (exApngRefs4.zip [27, 1, 27, 9])).map Prod.fst ≠
      (stableSortByKey (exApngRefs4.zip [1, 0, 2, 3])).map Prod.fst := by
  decide

/-- The header-scan loop with an arbitrary accumulator: on success the
returned list is the accumulator followed by the scan trace up to (and
excluding) the first IDAT, and rescanning at the rewound cursor yields that
IDAT. -/
theorem scan_header_go (file : List Nat) :
    ∀ (fuel : Nat) (s : PngReaderState) (acc chunks : List PngChunkRef) (s' : PngReaderState),
      scan_header_chunksF file fuel s acc = some (.ok (chunks, s')) →
      chunks = acc ++ (scanTraceF file fuel s).takeWhile (fun cr => !(cr.chunktype == ctIDAT)) ∧
      ∃ cr s'', scan_next_chunk file s' = .ok (cr, s'') ∧ cr.chunktype = ctIDAT ∧
        cr.position = s'.next_chunk_pos := by
  intro fuel
  induction fuel with
  | zero => intro s acc chunks s' h; cases h
  | succ fuel ih =>
    intro s acc chunks s' h
    unfold scan_header_chunksF at h
    cases hscan : scan_next_chunk file s with
    | error es => rw [hscan] at h; simp at h
    | ok p =>
      obtain ⟨cr, s₁⟩ := p
      rw [hscan] at h
      simp only at h
      by_cases hid : cr.chunktype = ctIDAT
      · rw [if_pos hid] at h
        simp only [Option.some.injEq, Except.ok.injEq, Prod.mk.injEq] at h
        obtain ⟨h1, h2⟩ := h
        subst h1
        constructor
        · unfold scanTraceF
          rw [hscan, List.takeWhile_cons_of_neg (by simp [hid]), List.append_nil]
        · have hfs := scan_next_chunk_ok_from_stream file s cr s₁ hscan
          have hpos := PngChunkRef.from_stream_pos file s.next_chunk_pos cr hfs
          have hfs' : PngChunkRef.from_stream file s'.next_chunk_pos = .ok cr := by
            rw [← h2]
            show PngChunkRef.from_stream file cr.position = .ok cr
            rw [hpos]
            exact hfs
          exact ⟨cr, _, scan_next_chunk_idat file s' cr hfs' hid, hid, by rw [← h2]⟩
      · rw [if_neg hid] at h
        have hrec := ih s₁ (acc ++ [cr]) chunks s' h
        refine ⟨?_, hrec.2⟩
        have htr : scanTraceF file (fuel + 1) s = cr :: scanTraceF file fuel s₁ := by
          simp only [scanTraceF]
          rw [hscan]
        rw [hrec.1, htr, List.takeWhile_cons_of_pos (by simp [hid]), List.append_assoc,
          List.singleton_append]

/-- C8: a successful `scan_header_chunks` returns exactly the references
scanned before the first IDAT (none of them an IDAT, and precisely the
IDAT-free prefix of the scan trace), and rewinds the cursor so that the
next `scan_next_chunk` returns that first IDAT. -/
theorem scan_header_chunks_spec (file : List Nat) (fuel : Nat) (s : PngReaderState)
    (chunks : List PngChunkRef) (s' : PngReaderState)
    (h : scan_header_chunksF file fuel s [] = some (.ok (chunks, s'))) :
    chunks = (scanTraceF file fuel s).takeWhile (fun cr => !(cr.chunktype == ctIDAT)) ∧
    (∀ cr ∈ chunks, cr.chunktype ≠ ctIDAT) ∧
    ∃ cr s'', scan_next_chunk file s' = .ok (cr, s'') ∧ cr.chunktype = ctIDAT ∧
      cr.position = s'.next_chunk_pos := by
  have hgo := scan_header_go file fuel s [] chunks s' h
  have h1 : chunks = (scanTraceF file fuel s).takeWhile (fun cr => !(cr.chunktype == ctIDAT)) := by
    simpa using hgo.1
  refine ⟨h1, ?_, hgo.2⟩
  intro cr hcr
  rw [h1] at hcr
  have := List.mem_takeWhile_imp hcr
  simpa using this

/-- Witness for C8: the minimal PNG `exPngFile` (IHDR, IDAT, IEND): the
header scan returns only the IHDR reference and the rewound cursor rescans
the IDAT. -/
theorem scan_header_chunks_spec_witness :
    (∀ cr ∈ [(⟨8, 13, ctIHDR⟩ : PngChunkRef)], cr.chunktype ≠ ctIDAT) ∧
    (∃ cr s'', scan_next_chunk exPngFile exHdrState = .ok (cr, s'') ∧
      cr.chunktype = ctIDAT ∧ cr.position = exHdrState.next_chunk_pos) :=
  ⟨(scan_header_chunks_spec exPngFile 4 initState [⟨8, 13, ctIHDR⟩] exHdrState (by decide)).2.1,
   (scan_header_chunks_spec exPngFile 4 initState [⟨8, 13, ctIHDR⟩] exHdrState (by decide)).2.2⟩
